import Mathlib

/-!
Shallow embedding of the Mergington High School management backend
(`src/app.py`): in-memory credential store, session store and activity
catalog, together with the request handlers that operate on them.

Python dicts are modelled as association lists over `String` keys with the
usual dict semantics: lookup finds the first binding, assignment to an
existing key replaces its value in place, assignment to a fresh key appends
at the end (Python 3.7 insertion order), `del` removes the binding.
Handlers that in Python mutate the module-level globals and `raise
HTTPException` are modelled as functions from an `AppState` to a pair of
the (possibly updated) `AppState` and an `Except HTTPError result`; a
handler raises before any mutation, which the embedding reflects by
returning the input state unchanged in every error branch.  The random
session token of `login` (secrets.token_urlsafe) is passed in as an
explicit argument.
-/

namespace Mergington

/-- Model of fastapi.HTTPException: a status code and a detail string. -/
structure HTTPError where
  status_code : Nat
  detail : String
deriving DecidableEq

/-- A record of the in-memory user database `users`:
password, role and display name, keyed by email. -/
structure UserRec where
  password : String
  role : String
  name : String
deriving DecidableEq

/-- A record of the in-memory activity database `activities`. -/
structure Activity where
  description : String
  schedule : String
  max_participants : Nat
  participants : List String
deriving DecidableEq

/-- The dict returned by `get_current_user`: the session email merged with
the user record, as in the Python expression with the email key added to
the record fields. -/
structure AuthedUser where
  email : String
  password : String
  role : String
  name : String
deriving DecidableEq

/-- A Python dict with string keys, as an insertion-ordered association list. -/
abbrev Dict (α : Type) := List (String × α)

/-- The three module-level mutable globals of app.py. -/
structure AppState where
  users : Dict UserRec
  sessions : Dict String
  activities : Dict Activity
deriving DecidableEq

/-- Dict lookup (`d.get(k)` / `d[k]`): value of the first binding of the key. -/
def dictGet {α : Type} : Dict α → String → Option α
  | [], _ => none
  | (k, v) :: rest, key => if k = key then some v else dictGet rest key

/-- Dict membership (`k in d`). -/
def dictHas {α : Type} (d : Dict α) (k : String) : Bool :=
  (dictGet d k).isSome

/-- Dict assignment (`d[k] = v`): replace the value of an existing key in
place, otherwise append the new binding at the end.  A dict never has two
bindings of one key, so replacing the first binding is dict assignment. -/
def dictSet {α : Type} : Dict α → String → α → Dict α
  | [], k, v => [(k, v)]
  | (k₁, v₁) :: rest, k, v =>
    if k₁ = k then (k, v) :: rest else (k₁, v₁) :: dictSet rest k v

/-- Dict deletion (`del d[k]`): drop the binding of the key. -/
def dictDel {α : Type} (d : Dict α) (k : String) : Dict α :=
  d.filter (fun p => decide (p.1 ≠ k))

/-- Truthiness of an optional string in Python: `not x` holds for a missing
value (None) and for the empty string. -/
def optBlank : Option String → Bool
  | none => true
  | some s => s.isEmpty

/-- Error raised by get_current_user when no valid token is presented. -/
def notAuthenticatedErr : HTTPError := ⟨401, "Not authenticated"⟩

/-- Error raised by get_current_user on a stale session. -/
def invalidSessionErr : HTTPError := ⟨401, "Invalid session"⟩

/-- Error raised by login on unknown email or wrong password. -/
def invalidCredentialsErr : HTTPError := ⟨401, "Invalid credentials"⟩

/-- Error raised by signup and unregister on an unknown activity. -/
def activityNotFoundErr : HTTPError := ⟨404, "Activity not found"⟩

/-- Error raised by signup when the ownership rule fails. -/
def forbiddenSignupErr : HTTPError := ⟨403, "Students can only sign up themselves"⟩

/-- Error raised by unregister when the ownership rule fails. -/
def forbiddenUnregisterErr : HTTPError := ⟨403, "Students can only unregister themselves"⟩

/-- Error raised by signup when the email is already on the roster. -/
def alreadySignedUpErr : HTTPError := ⟨400, "Student is already signed up"⟩

/-- Error raised by unregister when the email is not on the roster. -/
def notSignedUpErr : HTTPError := ⟨400, "Student is not signed up for this activity"⟩

/-- Error raised by the require_roles dependency. -/
def insufficientPermissionsErr : HTTPError := ⟨403, "Insufficient permissions"⟩

/-- Error raised by create_user on a blank field. -/
def missingFieldsErr : HTTPError := ⟨400, "Missing user fields"⟩

/-- Error raised by create_user on a duplicate email. -/
def userExistsErr : HTTPError := ⟨400, "User already exists"⟩

/-- Error raised by create_user on a role outside the three known roles. -/
def invalidRoleErr : HTTPError := ⟨400, "Invalid role"⟩

/-- Error raised by delete_user on an unknown email. -/
def userNotFoundErr : HTTPError := ⟨404, "User not found"⟩

/-- Error raised by delete_user when the target record has role admin. -/
def cannotDeleteAdminErr : HTTPError := ⟨403, "Cannot delete another admin"⟩

/-- get_current_user: resolve the session cookie to a user.  Fails 401 if
the token is missing or falsy (None or the empty string) or unknown to the
session store, or if the stored email no longer has a user record. -/
def get_current_user (st : AppState) (session_token : Option String) :
    Except HTTPError AuthedUser :=
  match session_token with
  | none => .error notAuthenticatedErr
  | some t =>
    if t.isEmpty then .error notAuthenticatedErr
    else
      match dictGet st.sessions t with
      | none => .error notAuthenticatedErr
      | some email =>
        match dictGet st.users email with
        | none => .error invalidSessionErr
        | some u => .ok ⟨email, u.password, u.role, u.name⟩

/-- login handler.  `data_email` and `data_password` model `data.get(...)`
on the request body; `token` models the secrets.token_urlsafe(16) value.
On success the token is mapped to the email in the session store and the
user's role and display name are returned. -/
def login (st : AppState) (data_email data_password : Option String)
    (token : String) : AppState × Except HTTPError (String × String) :=
  match data_email with
  | none => (st, .error invalidCredentialsErr)
  | some email =>
    match dictGet st.users email with
    | none => (st, .error invalidCredentialsErr)
    | some u =>
      if some u.password ≠ data_password then (st, .error invalidCredentialsErr)
      else ({st with sessions := dictSet st.sessions token email},
            .ok (u.role, u.name))

/-- logout handler: delete the token from the session store if present;
never an error. -/
def logout (st : AppState) (session_token : Option String) : AppState :=
  match session_token with
  | none => st
  | some t =>
    if dictHas st.sessions t then {st with sessions := dictDel st.sessions t}
    else st

/-- signup_for_activity handler: 404 if the activity is unknown, 403 if a
student acts on another email, 400 if the email is already on the roster,
otherwise append the email to the roster. -/
def signup_for_activity (st : AppState) (activity_name email : String)
    (user : AuthedUser) : AppState × Except HTTPError String :=
  match dictGet st.activities activity_name with
  | none => (st, .error activityNotFoundErr)
  | some activity =>
    if user.role = "student" ∧ user.email ≠ email then
      (st, .error forbiddenSignupErr)
    else if email ∈ activity.participants then
      (st, .error alreadySignedUpErr)
    else
      let activity' := {activity with participants := activity.participants ++ [email]}
      ({st with activities := dictSet st.activities activity_name activity'},
       .ok ("Signed up " ++ email ++ " for " ++ activity_name))

/-- unregister_from_activity handler: 404 if the activity is unknown, 403
if a student acts on another email, 400 if the email is not on the roster,
otherwise remove the first occurrence of the email (list.remove). -/
def unregister_from_activity (st : AppState) (activity_name email : String)
    (user : AuthedUser) : AppState × Except HTTPError String :=
  match dictGet st.activities activity_name with
  | none => (st, .error activityNotFoundErr)
  | some activity =>
    if user.role = "student" ∧ user.email ≠ email then
      (st, .error forbiddenUnregisterErr)
    else if email ∉ activity.participants then
      (st, .error notSignedUpErr)
    else
      let activity' := {activity with participants := activity.participants.erase email}
      ({st with activities := dictSet st.activities activity_name activity'},
       .ok ("Unregistered " ++ email ++ " from " ++ activity_name))

/-- require_roles dependency: 403 unless the acting user's role is in the
allowed list. -/
def require_roles (roles : List String) (user : AuthedUser) :
    Except HTTPError AuthedUser :=
  if user.role ∉ roles then .error insufficientPermissionsErr else .ok user

/-- create_user handler (admin or staff only): 400 on any blank field, on a
duplicate email, or on a role outside admin/staff/student; otherwise insert
the record. -/
def create_user (st : AppState)
    (data_email data_password data_role data_name : Option String)
    (user : AuthedUser) : AppState × Except HTTPError String :=
  match require_roles ["admin", "staff"] user with
  | .error err => (st, .error err)
  | .ok _ =>
    if optBlank data_email || optBlank data_password ||
       optBlank data_role || optBlank data_name then
      (st, .error missingFieldsErr)
    else
      let email := data_email.getD ""
      let password := data_password.getD ""
      let role := data_role.getD ""
      let name := data_name.getD ""
      if dictHas st.users email then (st, .error userExistsErr)
      else if role ∉ ["admin", "staff", "student"] then (st, .error invalidRoleErr)
      else ({st with users := dictSet st.users email ⟨password, role, name⟩},
            .ok ("User " ++ email ++ " created with role " ++ role))

/-- delete_user handler (admin only): 404 on an unknown email, 403 when the
target record's role is admin, otherwise delete the record. -/
def delete_user (st : AppState) (email : String) (user : AuthedUser) :
    AppState × Except HTTPError String :=
  match require_roles ["admin"] user with
  | .error err => (st, .error err)
  | .ok _ =>
    match dictGet st.users email with
    | none => (st, .error userNotFoundErr)
    | some target =>
      if target.role = "admin" then (st, .error cannotDeleteAdminErr)
      else ({st with users := dictDel st.users email},
            .ok ("User " ++ email ++ " deleted"))

/-- Field dict of a user record, in the key order of the Python literal. -/
def userFields (u : UserRec) : Dict String :=
  [("password", u.password), ("role", u.role), ("name", u.name)]

/-- list_users handler (admin or staff only): every user record with the
password field stripped by the dict comprehension. -/
def list_users (st : AppState) (user : AuthedUser) :
    Except HTTPError (Dict (Dict String)) :=
  match require_roles ["admin", "staff"] user with
  | .error err => .error err
  | .ok _ =>
    .ok (st.users.map (fun p =>
      (p.1, (userFields p.2).filter (fun kv => decide (kv.1 ≠ "password")))))

/-- The seed data of app.py: the three demo users and empty session store
and the nine seeded activities. -/
def initialState : AppState where
  users :=
    [("admin@mergington.edu", ⟨"adminpass", "admin", "Admin User"⟩),
     ("teacher@mergington.edu", ⟨"teachpass", "staff", "Teacher T."⟩),
     ("student@mergington.edu", ⟨"studpass", "student", "Student S."⟩)]
  sessions := []
  activities :=
    [("Chess Club",
      ⟨"Learn strategies and compete in chess tournaments",
       "Fridays, 3:30 PM - 5:00 PM", 12,
       ["michael@mergington.edu", "daniel@mergington.edu"]⟩),
     ("Programming Class",
      ⟨"Learn programming fundamentals and build software projects",
       "Tuesdays and Thursdays, 3:30 PM - 4:30 PM", 20,
       ["emma@mergington.edu", "sophia@mergington.edu"]⟩),
     ("Gym Class",
      ⟨"Physical education and sports activities",
       "Mondays, Wednesdays, Fridays, 2:00 PM - 3:00 PM", 30,
       ["john@mergington.edu", "olivia@mergington.edu"]⟩),
     ("Soccer Team",
      ⟨"Join the school soccer team and compete in matches",
       "Tuesdays and Thursdays, 4:00 PM - 5:30 PM", 22,
       ["liam@mergington.edu", "noah@mergington.edu"]⟩),
     ("Basketball Team",
      ⟨"Practice and play basketball with the school team",
       "Wednesdays and Fridays, 3:30 PM - 5:00 PM", 15,
       ["ava@mergington.edu", "mia@mergington.edu"]⟩),
     ("Art Club",
      ⟨"Explore your creativity through painting and drawing",
       "Thursdays, 3:30 PM - 5:00 PM", 15,
       ["amelia@mergington.edu", "harper@mergington.edu"]⟩),
     ("Drama Club",
      ⟨"Act, direct, and produce plays and performances",
       "Mondays and Wednesdays, 4:00 PM - 5:30 PM", 20,
       ["ella@mergington.edu", "scarlett@mergington.edu"]⟩),
     ("Math Club",
      ⟨"Solve challenging problems and participate in math competitions",
       "Tuesdays, 3:30 PM - 4:30 PM", 10,
       ["james@mergington.edu", "benjamin@mergington.edu"]⟩),
     ("Debate Team",
      ⟨"Develop public speaking and argumentation skills",
       "Fridays, 4:00 PM - 5:30 PM", 12,
       ["charlotte@mergington.edu", "henry@mergington.edu"]⟩)]

/-- The catalog with every activity's max_participants field rewritten by
an arbitrary function; used to state that capacity never influences the
enrollment operations. -/
def mapMax (f : Nat → Nat) (d : Dict Activity) : Dict Activity :=
  d.map (fun p => (p.1, {p.2 with max_participants := f p.2.max_participants}))

/-- An activity with its roster replaced and all other fields kept. -/
def withParticipants (act : Activity) (ps : List String) : Activity :=
  {act with participants := ps}

/-- Dict assignment stores the value at the key. -/
theorem dictGet_dictSet_self {α : Type} (d : Dict α) (k : String) (v : α) :
    dictGet (dictSet d k v) k = some v := by
  induction d with
  | nil => simp [dictSet, dictGet]
  | cons p t ih =>
    obtain ⟨k₁, v₁⟩ := p
    by_cases hk : k₁ = k
    · simp [dictSet, dictGet, hk]
    · simp [dictSet, dictGet, hk]
      exact ih

/-- Dict assignment leaves every other key's value alone. -/
theorem dictGet_dictSet_ne {α : Type} (d : Dict α) {k k' : String} (v : α)
    (h : k' ≠ k) : dictGet (dictSet d k v) k' = dictGet d k' := by
  induction d with
  | nil => simp [dictSet, dictGet, Ne.symm h]
  | cons p t ih =>
    obtain ⟨k₁, v₁⟩ := p
    by_cases hk : k₁ = k
    · subst hk
      simp [dictSet, dictGet, Ne.symm h]
    · by_cases hk' : k₁ = k'
      · simp [dictSet, dictGet, hk, hk', h]
      · simp [dictSet, dictGet, hk, hk']
        exact ih

/-- Dict deletion removes the key. -/
theorem dictGet_dictDel_self {α : Type} (d : Dict α) (k : String) :
    dictGet (dictDel d k) k = none := by
  induction d with
  | nil => rfl
  | cons p t ih =>
    obtain ⟨k₁, v₁⟩ := p
    by_cases hk : k₁ = k
    · simpa [dictDel, List.filter_cons, hk] using ih
    · simpa [dictDel, dictGet, List.filter_cons, hk] using ih

/-- Dict deletion leaves every other key's value alone. -/
theorem dictGet_dictDel_ne {α : Type} (d : Dict α) {k k' : String}
    (h : k' ≠ k) : dictGet (dictDel d k) k' = dictGet d k' := by
  induction d with
  | nil => rfl
  | cons p t ih =>
    obtain ⟨k₁, v₁⟩ := p
    by_cases hk : k₁ = k
    · subst hk
      simp [dictDel, dictGet, List.filter_cons, Ne.symm h] at ih ⊢
      exact ih
    · by_cases hk' : k₁ = k'
      · simp [dictDel, dictGet, List.filter_cons, hk, hk', h]
      · simp [dictDel, dictGet, List.filter_cons, hk, hk'] at ih ⊢
        exact ih

/-- Assignment of an absent key appends the binding at the end. -/
theorem dictSet_of_absent {α : Type} {d : Dict α} {k : String}
    (h : dictGet d k = none) (v : α) : dictSet d k v = d ++ [(k, v)] := by
  induction d with
  | nil => rfl
  | cons p t ih =>
    obtain ⟨k₁, v₁⟩ := p
    by_cases hk : k₁ = k
    · simp [dictGet, hk] at h
    · simp only [dictGet, if_neg hk] at h
      simp [dictSet, hk, ih h]

/-- Lookup commutes with the max_participants rewrite. -/
theorem dictGet_mapMax (f : Nat → Nat) (d : Dict Activity) (k : String) :
    dictGet (mapMax f d) k =
      (dictGet d k).map (fun a => {a with max_participants := f a.max_participants}) := by
  induction d with
  | nil => rfl
  | cons p t ih =>
    obtain ⟨k₁, v₁⟩ := p
    by_cases hk : k₁ = k
    · simp [mapMax, dictGet, hk]
    · simp [mapMax, dictGet, hk] at ih ⊢
      exact ih

/-- Lookup commutes with the password-stripping map of list_users. -/
theorem dictGet_strip (d : Dict UserRec) (k : String) :
    dictGet (d.map (fun p =>
        (p.1, (userFields p.2).filter (fun kv => decide (kv.1 ≠ "password"))))) k =
      (dictGet d k).map
        (fun t => (userFields t).filter (fun kv => decide (kv.1 ≠ "password"))) := by
  induction d with
  | nil => rfl
  | cons p t ih =>
    obtain ⟨k₁, v₁⟩ := p
    by_cases hk : k₁ = k
    · simp [dictGet, hk]
    · simp [dictGet, hk] at ih ⊢
      exact ih

/-- The password-stripping filter keeps exactly the role and name fields. -/
theorem strip_userFields (t : UserRec) :
    (userFields t).filter (fun kv => decide (kv.1 ≠ "password")) =
      [("role", t.role), ("name", t.name)] := rfl

/-- C1: for an activity present in the catalog, both signup and unregister
fail with a 403 FORBIDDEN error exactly in the ownership-rule case: they
fail 403 when the acting user's role is student and their email differs
from the target email, and no 403 error can arise when the role is not
student or the emails agree. -/
theorem ownership_rule_enrollment (st : AppState) (a e : String)
    (u : AuthedUser) (act : Activity)
    (hact : dictGet st.activities a = some act) :
    ((u.role = "student" ∧ u.email ≠ e) →
      (signup_for_activity st a e u).2 = .error forbiddenSignupErr ∧
      (unregister_from_activity st a e u).2 = .error forbiddenUnregisterErr) ∧
    (¬(u.role = "student" ∧ u.email ≠ e) →
      (∀ err, (signup_for_activity st a e u).2 = .error err →
        err.status_code ≠ 403) ∧
      (∀ err, (unregister_from_activity st a e u).2 = .error err →
        err.status_code ≠ 403)) := by
  constructor
  · intro hown
    simp [signup_for_activity, unregister_from_activity, hact, hown]
  · intro hown
    constructor
    · intro err herr
      simp only [signup_for_activity, hact, if_neg hown] at herr
      by_cases hmem : e ∈ act.participants
      · rw [if_pos hmem] at herr
        simp only at herr
        injection herr with h
        subst h
        decide
      · simp [hmem] at herr
    · intro err herr
      simp only [unregister_from_activity, hact, if_neg hown] at herr
      by_cases hmem : e ∉ act.participants
      · rw [if_pos hmem] at herr
        simp only at herr
        injection herr with h
        subst h
        decide
      · simp [hmem] at herr

/-- Witness for C1: at the seeded state, the seeded student acting on a
different email is rejected 403 by both enrollment operations. -/
theorem ownership_rule_enrollment_witness :
    (signup_for_activity initialState "Chess Club" "other@mergington.edu"
      ⟨"student@mergington.edu", "studpass", "student", "Student S."⟩).2 =
      .error forbiddenSignupErr ∧
    (unregister_from_activity initialState "Chess Club" "other@mergington.edu"
      ⟨"student@mergington.edu", "studpass", "student", "Student S."⟩).2 =
      .error forbiddenUnregisterErr :=
  (ownership_rule_enrollment initialState "Chess Club" "other@mergington.edu"
      ⟨"student@mergington.edu", "studpass", "student", "Student S."⟩
      ⟨"Learn strategies and compete in chess tournaments",
       "Fridays, 3:30 PM - 5:00 PM", 12,
       ["michael@mergington.edu", "daniel@mergington.edu"]⟩
      (by rfl)).1 (by decide)

/-- C2: for an activity in the catalog and an email not yet on its roster,
signup by an authorized acting user succeeds, the roster becomes the old
roster with the email appended at the end (insertion order preserved), and
the email occurs exactly once afterward. -/
theorem signup_success_postcondition (st : AppState) (a e : String)
    (u : AuthedUser) (act : Activity)
    (hact : dictGet st.activities a = some act)
    (hauth : ¬(u.role = "student" ∧ u.email ≠ e))
    (hnew : e ∉ act.participants) :
    signup_for_activity st a e u =
      ({st with activities := dictSet st.activities a (withParticipants act (act.participants ++ [e]))},
       .ok ("Signed up " ++ e ++ " for " ++ a)) ∧
    dictGet (signup_for_activity st a e u).1.activities a =
      some (withParticipants act (act.participants ++ [e])) ∧
    (act.participants ++ [e]).count e = 1 := by
  have hmain : signup_for_activity st a e u =
      ({st with activities := dictSet st.activities a (withParticipants act (act.participants ++ [e]))},
       .ok ("Signed up " ++ e ++ " for " ++ a)) := by
    simp [signup_for_activity, withParticipants, hact, hauth, hnew]
  refine ⟨hmain, ?_, ?_⟩
  · rw [hmain]
    exact dictGet_dictSet_self ..
  · rw [List.count_append, List.count_eq_zero.mpr hnew]
    simp

/-- Witness for C2: the seeded staff user enrolls a new email in Chess
Club; the roster gains the email at the end. -/
theorem signup_success_postcondition_witness :
    dictGet (signup_for_activity initialState "Chess Club"
        "newkid@mergington.edu"
        ⟨"teacher@mergington.edu", "teachpass", "staff", "Teacher T."⟩).1.activities
      "Chess Club" =
      some ⟨"Learn strategies and compete in chess tournaments",
        "Fridays, 3:30 PM - 5:00 PM", 12,
        ["michael@mergington.edu", "daniel@mergington.edu",
         "newkid@mergington.edu"]⟩ :=
  ((signup_success_postcondition initialState "Chess Club"
      "newkid@mergington.edu"
      ⟨"teacher@mergington.edu", "teachpass", "staff", "Teacher T."⟩
      ⟨"Learn strategies and compete in chess tournaments",
       "Fridays, 3:30 PM - 5:00 PM", 12,
       ["michael@mergington.edu", "daniel@mergington.edu"]⟩
      (by rfl) (by decide) (by decide)).2).1

/-- C3: signup checks NOT_FOUND first, then the ownership rule, then
double enrollment; a second identical signup right after a successful one
fails ALREADY_ENROLLED, and every failure leaves the whole state (hence
the roster) unchanged. -/
theorem signup_failure_precedence (st : AppState) (a e : String)
    (u : AuthedUser) :
    (dictGet st.activities a = none →
      signup_for_activity st a e u = (st, .error activityNotFoundErr)) ∧
    (∀ act, dictGet st.activities a = some act →
      (u.role = "student" ∧ u.email ≠ e) →
      signup_for_activity st a e u = (st, .error forbiddenSignupErr)) ∧
    (∀ act, dictGet st.activities a = some act →
      ¬(u.role = "student" ∧ u.email ≠ e) → e ∈ act.participants →
      signup_for_activity st a e u = (st, .error alreadySignedUpErr)) ∧
    (∀ st₁ m, signup_for_activity st a e u = (st₁, .ok m) →
      (signup_for_activity st₁ a e u).2 = .error alreadySignedUpErr) ∧
    (∀ err, (signup_for_activity st a e u).2 = .error err →
      (signup_for_activity st a e u).1 = st) := by
  refine ⟨?_, ?_, ?_, ?_, ?_⟩
  · intro h
    simp [signup_for_activity, h]
  · intro act h hown
    simp [signup_for_activity, h, hown]
  · intro act h hown hmem
    simp [signup_for_activity, h, hown, hmem]
  · intro st₁ m hok
    cases hd : dictGet st.activities a with
    | none => simp [signup_for_activity, hd] at hok
    | some act =>
      by_cases hown : u.role = "student" ∧ u.email ≠ e
      · simp [signup_for_activity, hd, hown] at hok
      · by_cases hmem : e ∈ act.participants
        · simp [signup_for_activity, hd, hown, hmem] at hok
        · simp only [signup_for_activity, hd, if_neg hown, if_neg hmem] at hok
          injection hok with h₁ h₂
          subst h₁
          simp [signup_for_activity, dictGet_dictSet_self, hown]
  · intro err herr
    cases hd : dictGet st.activities a with
    | none => simp [signup_for_activity, hd]
    | some act =>
      by_cases hown : u.role = "student" ∧ u.email ≠ e
      · simp [signup_for_activity, hd, hown]
      · by_cases hmem : e ∈ act.participants
        · simp [signup_for_activity, hd, hown, hmem]
        · simp [signup_for_activity, hd, hown, hmem] at herr

/-- Witness for C3: signing up for an activity missing from the seeded
catalog fails 404 and changes nothing. -/
theorem signup_failure_precedence_witness :
    signup_for_activity initialState "Knitting Club" "student@mergington.edu"
      ⟨"admin@mergington.edu", "adminpass", "admin", "Admin User"⟩ =
      (initialState, .error activityNotFoundErr) :=
  (signup_failure_precedence initialState "Knitting Club"
      "student@mergington.edu"
      ⟨"admin@mergington.edu", "adminpass", "admin", "Admin User"⟩).1 (by rfl)

/-- C4: a successful signup followed by an unregister of the same email
(by any authorized acting users) succeeds and restores the catalog, and in
particular the activity's roster, to exactly its pre-signup state. -/
theorem signup_unregister_round_trip (st : AppState) (a e : String)
    (u u' : AuthedUser) (act : Activity)
    (hact : dictGet st.activities a = some act)
    (hauth : ¬(u.role = "student" ∧ u.email ≠ e))
    (hauth' : ¬(u'.role = "student" ∧ u'.email ≠ e))
    (hnew : e ∉ act.participants) :
    (unregister_from_activity (signup_for_activity st a e u).1 a e u').2 =
      .ok ("Unregistered " ++ e ++ " from " ++ a) ∧
    ∀ x, dictGet
        (unregister_from_activity (signup_for_activity st a e u).1 a e u').1.activities x =
      dictGet st.activities x := by
  obtain ⟨d₀, s₀, m₀, ps⟩ := act
  have hnew' : e ∉ ps := hnew
  set act₁ := withParticipants ⟨d₀, s₀, m₀, ps⟩ (ps ++ [e]) with hact₁
  set c₁ := dictSet st.activities a act₁ with hc₁
  have hsign : (signup_for_activity st a e u).1 = {st with activities := c₁} := by
    simp [signup_for_activity, withParticipants, hact, hauth, hnew', hact₁, hc₁]
  rw [hsign]
  have hget1 : dictGet c₁ a = some act₁ := dictGet_dictSet_self ..
  have herase : (ps ++ [e]).erase e = ps := by
    rw [List.erase_append_right _ hnew']
    simp
  set act₂ := withParticipants act₁ ((ps ++ [e]).erase e) with hact₂
  have hunreg : unregister_from_activity {st with activities := c₁} a e u' =
      ({st with activities := dictSet c₁ a act₂},
       .ok ("Unregistered " ++ e ++ " from " ++ a)) := by
    simp [unregister_from_activity, hget1, withParticipants, hauth', hact₁, hact₂]
  rw [hunreg]
  refine ⟨rfl, fun x => ?_⟩
  show dictGet (dictSet c₁ a act₂) x = dictGet st.activities x
  by_cases hx : x = a
  · subst hx
    rw [dictGet_dictSet_self, hact]
    have hval : act₂ = ⟨d₀, s₀, m₀, ps⟩ := by
      simp [hact₂, hact₁, withParticipants, herase]
    rw [hval]
  · rw [dictGet_dictSet_ne _ _ hx, hc₁, dictGet_dictSet_ne _ _ hx]

/-- Witness for C4: the staff user enrolls a new email in Math Club and
the student's own unregister restores the seeded roster. -/
theorem signup_unregister_round_trip_witness :
    (unregister_from_activity
        (signup_for_activity initialState "Math Club" "extra@mergington.edu"
          ⟨"teacher@mergington.edu", "teachpass", "staff", "Teacher T."⟩).1
        "Math Club" "extra@mergington.edu"
        ⟨"extra@mergington.edu", "pw", "student", "Extra E."⟩).2 =
      .ok ("Unregistered " ++ "extra@mergington.edu" ++ " from " ++ "Math Club") ∧
    dictGet
        (unregister_from_activity
          (signup_for_activity initialState "Math Club" "extra@mergington.edu"
            ⟨"teacher@mergington.edu", "teachpass", "staff", "Teacher T."⟩).1
          "Math Club" "extra@mergington.edu"
          ⟨"extra@mergington.edu", "pw", "student", "Extra E."⟩).1.activities
        "Math Club" =
      dictGet initialState.activities "Math Club" :=
  ⟨(signup_unregister_round_trip initialState "Math Club" "extra@mergington.edu"
      ⟨"teacher@mergington.edu", "teachpass", "staff", "Teacher T."⟩
      ⟨"extra@mergington.edu", "pw", "student", "Extra E."⟩
      ⟨"Solve challenging problems and participate in math competitions",
       "Tuesdays, 3:30 PM - 4:30 PM", 10,
       ["james@mergington.edu", "benjamin@mergington.edu"]⟩
      (by rfl) (by decide) (by decide) (by decide)).1,
   (signup_unregister_round_trip initialState "Math Club" "extra@mergington.edu"
      ⟨"teacher@mergington.edu", "teachpass", "staff", "Teacher T."⟩
      ⟨"extra@mergington.edu", "pw", "student", "Extra E."⟩
      ⟨"Solve challenging problems and participate in math competitions",
       "Tuesdays, 3:30 PM - 4:30 PM", 10,
       ["james@mergington.edu", "benjamin@mergington.edu"]⟩
      (by rfl) (by decide) (by decide) (by decide)).2 "Math Club"⟩

/-- C5: signup succeeds with no condition on the roster size relative to
max_participants, and rewriting every activity's max_participants
arbitrarily changes the outcome of neither signup nor unregister. -/
theorem no_capacity_enforcement (st : AppState) (a e : String)
    (u : AuthedUser) (act : Activity) (f : Nat → Nat)
    (hact : dictGet st.activities a = some act)
    (hauth : ¬(u.role = "student" ∧ u.email ≠ e))
    (hnew : e ∉ act.participants) :
    (signup_for_activity st a e u).2 = .ok ("Signed up " ++ e ++ " for " ++ a) ∧
    (∀ st' a' e' u', (signup_for_activity
        {st' with activities := mapMax f st'.activities} a' e' u').2 =
      (signup_for_activity st' a' e' u').2) ∧
    (∀ st' a' e' u', (unregister_from_activity
        {st' with activities := mapMax f st'.activities} a' e' u').2 =
      (unregister_from_activity st' a' e' u').2) := by
  refine ⟨by simp [signup_for_activity, hact, hauth, hnew], ?_, ?_⟩
  · intro st' a' e' u'
    cases hd : dictGet st'.activities a' with
    | none => simp [signup_for_activity, dictGet_mapMax, hd]
    | some act' =>
      by_cases hown : u'.role = "student" ∧ u'.email ≠ e'
      · simp [signup_for_activity, dictGet_mapMax, hd, hown]
      · by_cases hmem : e' ∈ act'.participants
        · simp [signup_for_activity, dictGet_mapMax, hd, hown, hmem]
        · simp [signup_for_activity, dictGet_mapMax, hd, hown, hmem]
  · intro st' a' e' u'
    cases hd : dictGet st'.activities a' with
    | none => simp [unregister_from_activity, dictGet_mapMax, hd]
    | some act' =>
      by_cases hown : u'.role = "student" ∧ u'.email ≠ e'
      · simp [unregister_from_activity, dictGet_mapMax, hd, hown]
      · by_cases hmem : e' ∈ act'.participants
        · simp [unregister_from_activity, dictGet_mapMax, hd, hown, hmem]
        · simp [unregister_from_activity, dictGet_mapMax, hd, hown, hmem]

/-- Witness for C5: an activity already at its capacity of one still
accepts a second enrollment, so the roster exceeds max_participants. -/
theorem no_capacity_enforcement_witness :
    (signup_for_activity
        ⟨[], [], [("Tiny Club", ⟨"d", "s", 1, ["one@mergington.edu"]⟩)]⟩
        "Tiny Club" "two@mergington.edu"
        ⟨"teacher@mergington.edu", "teachpass", "staff", "Teacher T."⟩).2 =
      .ok ("Signed up " ++ "two@mergington.edu" ++ " for " ++ "Tiny Club") :=
  (no_capacity_enforcement
      ⟨[], [], [("Tiny Club", ⟨"d", "s", 1, ["one@mergington.edu"]⟩)]⟩
      "Tiny Club" "two@mergington.edu"
      ⟨"teacher@mergington.edu", "teachpass", "staff", "Teacher T."⟩
      ⟨"d", "s", 1, ["one@mergington.edu"]⟩ id
      (by rfl) (by decide) (by decide)).1

/-- C6: login fails INVALID_CREDENTIALS exactly when the email has no
record or the stored password differs from the supplied one; on success it
maps the fresh token to the email in the session store (appending a new
entry when the token is fresh), returns the user's role and name, and
leaves the credential store (and the catalog) unchanged. -/
theorem login_spec (st : AppState) (e p tok : String) :
    ((login st (some e) (some p) tok).2 = .error invalidCredentialsErr ↔
      (dictGet st.users e = none ∨
        ∃ u, dictGet st.users e = some u ∧ u.password ≠ p)) ∧
    (∀ u, dictGet st.users e = some u → u.password = p →
      login st (some e) (some p) tok =
        ({st with sessions := dictSet st.sessions tok e}, .ok (u.role, u.name))) ∧
    (∀ u, dictGet st.users e = some u → u.password = p →
      dictGet st.sessions tok = none →
      (login st (some e) (some p) tok).1.sessions = st.sessions ++ [(tok, e)]) ∧
    (login st (some e) (some p) tok).1.users = st.users ∧
    (login st (some e) (some p) tok).1.activities = st.activities := by
  have hmain : ∀ u, dictGet st.users e = some u → u.password = p →
      login st (some e) (some p) tok =
        ({st with sessions := dictSet st.sessions tok e}, .ok (u.role, u.name)) := by
    intro u hu hp
    simp [login, hu, hp]
  refine ⟨?_, hmain, ?_, ?_, ?_⟩
  · cases hu : dictGet st.users e with
    | none => simp [login, hu]
    | some u =>
      by_cases hp : u.password = p
      · rw [hmain u hu hp]
        simp [hu, hp]
      · simp [login, hu, hp]
  · intro u hu hp hfresh
    rw [hmain u hu hp]
    exact dictSet_of_absent hfresh e
  · cases hu : dictGet st.users e with
    | none => simp [login, hu]
    | some u =>
      by_cases hp : u.password = p
      · rw [hmain u hu hp]
      · simp [login, hu, hp]
  · cases hu : dictGet st.users e with
    | none => simp [login, hu]
    | some u =>
      by_cases hp : u.password = p
      · rw [hmain u hu hp]
      · simp [login, hu, hp]

/-- Witness for C6: the seeded admin's login succeeds with role admin,
and the same email with a wrong password fails INVALID_CREDENTIALS. -/
theorem login_spec_witness :
    login initialState (some "admin@mergington.edu") (some "adminpass") "tok1" =
      ({initialState with sessions := [("tok1", "admin@mergington.edu")]},
       .ok ("admin", "Admin User")) ∧
    (login initialState (some "admin@mergington.edu") (some "wrongpass") "tok1").2 =
      .error invalidCredentialsErr :=
  ⟨(login_spec initialState "admin@mergington.edu" "adminpass" "tok1").2.1
      ⟨"adminpass", "admin", "Admin User"⟩ (by rfl) (by rfl),
   ((login_spec initialState "admin@mergington.edu" "wrongpass" "tok1").1).mpr
      (Or.inr ⟨⟨"adminpass", "admin", "Admin User"⟩, by rfl, by decide⟩)⟩

/-- C7: logout removes a present token from the session store, is a no-op
on an absent or missing token, touches no other store, and a token just
logged out no longer resolves: get_current_user fails 401. -/
theorem logout_spec (st : AppState) (t : String) :
    (dictHas st.sessions t = true →
      logout st (some t) = {st with sessions := dictDel st.sessions t}) ∧
    (dictHas st.sessions t = false → logout st (some t) = st) ∧
    logout st none = st ∧
    (logout st (some t)).users = st.users ∧
    (logout st (some t)).activities = st.activities ∧
    get_current_user (logout st (some t)) (some t) = .error notAuthenticatedErr := by
  refine ⟨fun hh => by simp [logout, hh], fun hh => by simp [logout, hh], rfl, ?_, ?_, ?_⟩
  · by_cases hh : dictHas st.sessions t
    · simp [logout, hh]
    · simp [logout, hh]
  · by_cases hh : dictHas st.sessions t
    · simp [logout, hh]
    · simp [logout, hh]
  · by_cases hh : dictHas st.sessions t
    · simp [logout, get_current_user, hh, dictGet_dictDel_self]
    · have hnone : dictGet st.sessions t = none := by
        cases ho : dictGet st.sessions t with
        | none => rfl
        | some v => simp [dictHas, ho] at hh
      simp [logout, get_current_user, hh, hnone]

/-- Witness for C7: with one live session, logout empties the session
store and the old token then fails 401. -/
theorem logout_spec_witness :
    logout {initialState with sessions := [("tok9", "student@mergington.edu")]}
        (some "tok9") =
      {initialState with sessions := ([] : Dict String)} ∧
    get_current_user
        (logout {initialState with sessions := [("tok9", "student@mergington.edu")]}
          (some "tok9"))
        (some "tok9") =
      .error notAuthenticatedErr :=
  ⟨(logout_spec {initialState with sessions := [("tok9", "student@mergington.edu")]}
      "tok9").1 (by rfl),
   (logout_spec {initialState with sessions := [("tok9", "student@mergington.edu")]}
      "tok9").2.2.2.2.2⟩

/-- C8: for an admin acting user, delete_user fails 404 on an absent
email, fails 403 on any target record with role admin (self included),
otherwise removes exactly that record; every failure leaves the state
unchanged. -/
theorem delete_user_spec (st : AppState) (e : String) (u : AuthedUser)
    (hadmin : u.role = "admin") :
    (dictGet st.users e = none →
      delete_user st e u = (st, .error userNotFoundErr)) ∧
    (∀ target, dictGet st.users e = some target → target.role = "admin" →
      delete_user st e u = (st, .error cannotDeleteAdminErr)) ∧
    (∀ target, dictGet st.users e = some target → target.role ≠ "admin" →
      delete_user st e u =
        ({st with users := dictDel st.users e}, .ok ("User " ++ e ++ " deleted")) ∧
      dictGet (delete_user st e u).1.users e = none ∧
      (∀ x, x ≠ e → dictGet (delete_user st e u).1.users x = dictGet st.users x)) ∧
    (∀ err, (delete_user st e u).2 = .error err → (delete_user st e u).1 = st) := by
  have hgate : require_roles ["admin"] u = .ok u := by
    simp [require_roles, hadmin]
  refine ⟨?_, ?_, ?_, ?_⟩
  · intro h
    simp [delete_user, hgate, h]
  · intro target ht hr
    simp [delete_user, hgate, ht, hr]
  · intro target ht hr
    have hdel : delete_user st e u =
        ({st with users := dictDel st.users e}, .ok ("User " ++ e ++ " deleted")) := by
      simp [delete_user, hgate, ht, hr]
    refine ⟨hdel, ?_, fun x hx => ?_⟩
    · rw [hdel]
      exact dictGet_dictDel_self ..
    · rw [hdel]
      exact dictGet_dictDel_ne _ hx
  · intro err herr
    cases ht : dictGet st.users e with
    | none => simp [delete_user, hgate, ht]
    | some target =>
      by_cases hr : target.role = "admin"
      · simp [delete_user, hgate, ht, hr]
      · simp [delete_user, hgate, ht, hr] at herr

/-- Witness for C8: the seeded admin targeting their own admin record is
refused 403 and the state is untouched. -/
theorem delete_user_spec_witness :
    delete_user initialState "admin@mergington.edu"
      ⟨"admin@mergington.edu", "adminpass", "admin", "Admin User"⟩ =
      (initialState, .error cannotDeleteAdminErr) :=
  (delete_user_spec initialState "admin@mergington.edu"
      ⟨"admin@mergington.edu", "adminpass", "admin", "Admin User"⟩
      (by rfl)).2.1 ⟨"adminpass", "admin", "Admin User"⟩ (by rfl) (by rfl)

/-- C9: for an admin or staff acting user, list_users succeeds; every
returned entry lacks a password field, and every stored email is returned
with its record's role and name. -/
theorem list_users_sanitized (st : AppState) (u : AuthedUser)
    (hrole : u.role = "admin" ∨ u.role = "staff") :
    list_users st u = .ok (st.users.map (fun p =>
      (p.1, (userFields p.2).filter (fun kv => decide (kv.1 ≠ "password"))))) ∧
    (∀ entry ∈ st.users.map (fun p =>
        (p.1, (userFields p.2).filter (fun kv => decide (kv.1 ≠ "password")))),
      dictGet entry.2 "password" = none) ∧
    (∀ e target, dictGet st.users e = some target →
      dictGet (st.users.map (fun p =>
          (p.1, (userFields p.2).filter (fun kv => decide (kv.1 ≠ "password"))))) e =
        some [("role", target.role), ("name", target.name)]) := by
  have hgate : require_roles ["admin", "staff"] u = .ok u := by
    rcases hrole with h | h <;> simp [require_roles, h]
  refine ⟨?_, ?_, ?_⟩
  · simp [list_users, hgate]
  · intro entry hmem
    simp only [List.mem_map] at hmem
    obtain ⟨p, -, rfl⟩ := hmem
    rw [strip_userFields]
    rfl
  · intro e target ht
    rw [dictGet_strip, ht]
    simp only [Option.map_some', strip_userFields]

/-- Witness for C9: the seeded staff user obtains the password-free
listing of the three seeded accounts, with the admin's entry carrying only
role and name. -/
theorem list_users_sanitized_witness :
    list_users initialState
        ⟨"teacher@mergington.edu", "teachpass", "staff", "Teacher T."⟩ =
      .ok [("admin@mergington.edu", [("role", "admin"), ("name", "Admin User")]),
           ("teacher@mergington.edu", [("role", "staff"), ("name", "Teacher T.")]),
           ("student@mergington.edu", [("role", "student"), ("name", "Student S.")])] ∧
    dictGet
        [("admin@mergington.edu", [("role", "admin"), ("name", "Admin User")]),
         ("teacher@mergington.edu", [("role", "staff"), ("name", "Teacher T.")]),
         ("student@mergington.edu", [("role", "student"), ("name", "Student S.")])]
        "admin@mergington.edu" =
      some [("role", "admin"), ("name", "Admin User")] :=
  ⟨(list_users_sanitized initialState
      ⟨"teacher@mergington.edu", "teachpass", "staff", "Teacher T."⟩ (Or.inr rfl)).1,
   (list_users_sanitized initialState
      ⟨"teacher@mergington.edu", "teachpass", "staff", "Teacher T."⟩ (Or.inr rfl)).2.2
     "admin@mergington.edu" ⟨"adminpass", "admin", "Admin User"⟩ (by rfl)⟩

/-- C10: a staff (non-admin) acting user may create a user with role
admin: with non-blank fields and a fresh email, create_user succeeds and
appends the new admin record to the credential store. -/
theorem staff_can_create_admin (st : AppState) (e p n : String)
    (u : AuthedUser) (hstaff : u.role = "staff")
    (he : e ≠ "") (hp : p ≠ "") (hn : n ≠ "")
    (hfresh : dictGet st.users e = none) :
    create_user st (some e) (some p) (some "admin") (some n) u =
      ({st with users := st.users ++ [(e, ⟨p, "admin", n⟩)]},
       .ok ("User " ++ e ++ " created with role " ++ "admin")) ∧
    dictGet (create_user st (some e) (some p) (some "admin") (some n) u).1.users e =
      some ⟨p, "admin", n⟩ := by
  have hgate : require_roles ["admin", "staff"] u = .ok u := by
    simp [require_roles, hstaff]
  have hmain : create_user st (some e) (some p) (some "admin") (some n) u =
      ({st with users := dictSet st.users e ⟨p, "admin", n⟩},
       .ok ("User " ++ e ++ " created with role " ++ "admin")) := by
    simp [create_user, hgate, optBlank, String.isEmpty_iff, he, hp, hn,
      dictHas, hfresh]
  refine ⟨?_, ?_⟩
  · rw [hmain, dictSet_of_absent hfresh]
  · rw [hmain]
    exact dictGet_dictSet_self ..

/-- Witness for C10: the seeded staff user creates a brand-new admin
account, which lands in the credential store with role admin. -/
theorem staff_can_create_admin_witness :
    dictGet (create_user initialState (some "newadmin@mergington.edu")
        (some "pw123") (some "admin") (some "New Admin")
        ⟨"teacher@mergington.edu", "teachpass", "staff", "Teacher T."⟩).1.users
      "newadmin@mergington.edu" =
      some ⟨"pw123", "admin", "New Admin"⟩ :=
  (staff_can_create_admin initialState "newadmin@mergington.edu" "pw123"
      "New Admin" ⟨"teacher@mergington.edu", "teachpass", "staff", "Teacher T."⟩
      (by rfl) (by decide) (by decide) (by decide) (by rfl)).2

end Mergington
